import Mathlib

/-!
Shallow embedding of the speed-test repository (backend/server.js,
frontend/script.js, and the unnamed worker-pool variant) used to settle the
frozen claims. Machine floats of the source are modelled as exact rationals
or reals; JavaScript Map and Set objects as association lists and key lists.
-/

namespace NetworkTest

/-! ## Frontend: signal quality (script.js, estimateSignalQuality, lines 662-681)
The source reads `this.testResults.{ping, jitter, packetLoss}` (floats) and
returns a label string after computing an internal score. -/

/-- Score computation of script.js lines 665-674: `let score = 100` followed by
three independent conditional subtractions on ping, jitter and packetLoss. -/
def qualityScore (ping jitter packetLoss : ℚ) : ℚ :=
  let s0 : ℚ := 100
  let s1 : ℚ := if ping > 100 then s0 - 30 else if ping > 50 then s0 - 15 else s0
  let s2 : ℚ := if jitter > 10 then s1 - 20 else if jitter > 5 then s1 - 10 else s1
  if packetLoss > 0.1 then s2 - 20 else if packetLoss > 0.05 then s2 - 10 else s2

/-- Label mapping of script.js lines 676-680. -/
def qualityLabel (score : ℚ) : String :=
  if score ≥ 90 then "Excellent"
  else if score ≥ 80 then "Good"
  else if score ≥ 70 then "Fair"
  else if score ≥ 60 then "Poor"
  else "Bad"

/-- Whole function script.js lines 662-681: computes the score, returns the label. -/
def estimateSignalQuality (ping jitter packetLoss : ℚ) : String :=
  qualityLabel (qualityScore ping jitter packetLoss)

/-- Modelled from the claim wording (spec section 4.5, jitter/quality phase):
penalty subtracted for ping, written as the spec words it. Used only to compare
the source computation against the claim statement. -/
def specPingPenalty (ping : ℚ) : ℚ :=
  if ping > 100 then 30 else if ping > 50 then 15 else 0

/-- Penalty for jitter as the spec words it. -/
def specJitterPenalty (jitter : ℚ) : ℚ :=
  if jitter > 10 then 20 else if jitter > 5 then 10 else 0

/-- Penalty for packet loss as the spec words it. -/
def specLossPenalty (packetLoss : ℚ) : ℚ :=
  if packetLoss > 0.1 then 20 else if packetLoss > 0.05 then 10 else 0

/-- Quality score as the spec words it: start at 100 and subtract the three
penalties. -/
def specQualityScore (ping jitter packetLoss : ℚ) : ℚ :=
  100 - specPingPenalty ping - specJitterPenalty jitter - specLossPenalty packetLoss

/-! ## Backend: per-server running statistics (server.js, POST /api/save-results,
lines 252-270). The stats object for a server starts at all zeroes and is
updated once per accepted result referencing that server. -/

/-- ServerStats record of server.js lines 255-261 (lastUpdated, a wall-clock
string, is not modelled: no claim reads it). -/
structure ServerStats where
  totalTests : Nat
  avgPing : ℚ
  avgDownload : ℚ
  avgUpload : ℚ
  deriving DecidableEq, Repr

/-- Initial stats of server.js lines 255-261: the object created when
serverStats.get returns nothing. -/
def initServerStats : ServerStats :=
  { totalTests := 0, avgPing := 0, avgDownload := 0, avgUpload := 0 }

/-- Metric triple read from an accepted result (results.results.{ping, download,
upload} in server.js lines 264-266). -/
structure ResultMetrics where
  ping : ℚ
  download : ℚ
  upload : ℚ
  deriving DecidableEq, Repr

/-- Update of server.js lines 263-267: totalTests is incremented first, then each
average is recomputed as (avg * (totalTests - 1) + sample) / totalTests. -/
def updateServerStats (s : ServerStats) (r : ResultMetrics) : ServerStats :=
  let n : Nat := s.totalTests + 1
  { totalTests := n
    avgPing := (s.avgPing * ((n : ℚ) - 1) + r.ping) / (n : ℚ)
    avgDownload := (s.avgDownload * ((n : ℚ) - 1) + r.download) / (n : ℚ)
    avgUpload := (s.avgUpload * ((n : ℚ) - 1) + r.upload) / (n : ℚ) }

/-- Stats after a sequence of accepted results for one server, starting from the
all-zero record. -/
def foldServerStats (rs : List ResultMetrics) : ServerStats :=
  rs.foldl updateServerStats initServerStats

/-- Concrete two-result history used by the C5 witness. -/
def demoMetrics : List ResultMetrics :=
  [{ ping := 1, download := 2, upload := 3 }, { ping := 3, download := 4, upload := 5 }]

/-! ## Worker variant: payload memoization cache (src/unnamed/part_000,
getTestData / testDataCache, lines 50-61). The Map caches one Buffer per
requested size and never evicts. Only the key set matters to the claim, so the
cache is modelled as its list of keys in insertion order; the cached Buffer
values are random filler whose content no claim inspects. -/

/-- Cache effect of one getTestData call (part_000 lines 52-61): if the size is
already a key the cache is unchanged, otherwise Map.set appends the new key. -/
def getTestDataKeys (cache : List Nat) (size : Nat) : List Nat :=
  if size ∈ cache then cache else cache ++ [size]

/-- Cache key set after a sequence of download requests with the given sizes,
starting from the empty Map of part_000 line 50. -/
def runTestDataRequests (sizes : List Nat) : List Nat :=
  sizes.foldl getTestDataKeys []

/-! ## Frontend: download-phase byte accounting (script.js, runDownloadTest,
lines 493-559). Four parallel XMLHttpRequests share one onprogress handler
(lines 517-534) that folds each progress event into the local `totalBytes`
using the shared instance field `this.loadedBytes`:
  totalBytes += event.loaded - (this.loadedBytes || 0);
  this.loadedBytes = event.loaded;
resetTest (line 363) zeroes loadedBytes before the run. -/

/-- One XHR progress event: which of the 4 parallel connections fired, and that
request's own cumulative byte count (event.loaded). -/
structure ProgressEvent where
  conn : Fin 4
  loaded : Nat
  deriving DecidableEq, Repr

/-- Accumulator state: the local totalBytes of runDownloadTest line 501 and the
shared this.loadedBytes field. -/
structure DownloadAccum where
  totalBytes : Int
  loadedBytes : Nat
  deriving DecidableEq, Repr

/-- Handler body of script.js lines 519-520 (loadedBytes starts at 0, so the
JavaScript `|| 0` guard is the identity here). -/
def onprogress (s : DownloadAccum) (e : ProgressEvent) : DownloadAccum :=
  { totalBytes := s.totalBytes + ((e.loaded : Int) - (s.loadedBytes : Int))
    loadedBytes := e.loaded }

/-- totalBytes / loadedBytes after a sequence of progress events of one download
phase, from the reset state. -/
def runDownloadProgress (events : List ProgressEvent) : DownloadAccum :=
  events.foldl onprogress { totalBytes := 0, loadedBytes := 0 }

/-- Bytes actually received so far by one connection: the cumulative count of its
most recent progress event (0 if it has not reported yet). -/
def lastLoadedOf (events : List ProgressEvent) (c : Fin 4) : Nat :=
  match (events.filter (fun e => e.conn = c)).getLast? with
  | some e => e.loaded
  | none => 0

/-- True number of bytes received so far across all 4 connections: the sum of the
per-connection cumulative counts. -/
def totalReceived (events : List ProgressEvent) : Nat :=
  ((List.finRange 4).map (lastLoadedOf events)).sum

/-- Failing interleaving for C2: connection 0 reports 100 bytes loaded, then
connection 1 reports its own 50 bytes. -/
def c2Trace : List ProgressEvent :=
  [{ conn := 0, loaded := 100 }, { conn := 1, loaded := 50 }]

/-! ## Frontend: run orchestration and cancellation (script.js, startTest lines
311-342, stopTest lines 344-351). The only assignment to `this.currentTest` in
the whole file is `this.currentTest = null` in the constructor (line 20);
stopTest reads it and calls .abort() on it when non-null. None of the phase
methods awaited by startTest reads `this.config.isTesting`, and saveResults
(line 333) runs unconditionally after the four phases. The model below is a
step function over the states a run passes through, with user stop clicks as
interleavable events. -/

/-- Client state tracked by the claims: the isTesting flag, the never-assigned
currentTest handle, the download-phase XHRs still in flight, every handle on
which .abort() was ever invoked, and the test ids handed to saveResults. -/
structure SpeedTestState where
  isTesting : Bool
  currentTest : Option Nat
  inflightDownloads : List Nat
  abortedTransfers : List Nat
  savedResults : List Nat
  deriving DecidableEq, Repr

/-- Constructor state (script.js lines 2-27): not testing, currentTest null,
nothing in flight, nothing stored. -/
def speedTestInit : SpeedTestState :=
  { isTesting := false, currentTest := none, inflightDownloads := []
    abortedTransfers := [], savedResults := [] }

/-- stopTest (script.js lines 344-351): abort currentTest if it is non-null
(removing it from flight and recording the abort), then clear isTesting. The
source never nulls currentTest afterwards, so the field is left as is. -/
def stopTest (s : SpeedTestState) : SpeedTestState :=
  let s1 := match s.currentTest with
    | some h =>
        { s with abortedTransfers := s.abortedTransfers ++ [h]
                 inflightDownloads := s.inflightDownloads.filter (fun x => x ≠ h) }
    | none => s
  { s1 with isTesting := false }

/-- Events of one run: the await boundaries of startTest at which a user click
can interleave. A click while isTesting is set lands in the stopTest branch of
startTest line 312-314. -/
inductive RunEvent where
  | beginTest
  | stopClick
  | pingPhase
  | downloadSpawn
  | downloadSettle
  | uploadPhase
  | jitterPhase
  | saveStep (tid : Nat)
  | finishTest
  deriving DecidableEq, Repr

/-- Effect of each event, read off startTest and the phase methods:
beginTest sets isTesting (line 317); stopClick runs stopTest when a test is
active (lines 312-314); downloadSpawn creates the 4 parallel XHRs (lines
509-543); downloadSettle resolves the race with every spawned XHR finishing
normally (lines 546-549); saveStep appends the result id (line 333, saveResults
is unconditional); finishTest is the finally block (lines 338-341). The ping,
upload and jitter phases touch none of the modelled fields. -/
def runStep (s : SpeedTestState) : RunEvent → SpeedTestState
  | .beginTest => { s with isTesting := true }
  | .stopClick => if s.isTesting then stopTest s else s
  | .pingPhase => s
  | .downloadSpawn => { s with inflightDownloads := [0, 1, 2, 3] }
  | .downloadSettle => { s with inflightDownloads := [] }
  | .uploadPhase => s
  | .jitterPhase => s
  | .saveStep tid => { s with savedResults := s.savedResults ++ [tid] }
  | .finishTest => { s with isTesting := false }

/-- State after a sequence of events from the constructor state. -/
def runEvents (events : List RunEvent) : SpeedTestState :=
  events.foldl runStep speedTestInit

/-- The C1 failing schedule: a full run with the user clicking stop in the middle
of the download phase. -/
def stoppedRunSchedule : List RunEvent :=
  [.beginTest, .pingPhase, .downloadSpawn, .stopClick, .downloadSettle,
   .uploadPhase, .jitterPhase, .saveStep 1, .finishTest]

/-! ## Backend: size parameter parsing for GET /download (server.js lines
512-518). The source runs `parseInt(req.query.size) || 10 * 1024 * 1024` and
then caps the value at 100 MiB. JavaScript parseInt skips leading whitespace,
reads an optional sign, autodetects a 0x/0X hexadecimal prefix, consumes the
longest digit prefix and ignores the rest; it yields NaN when no digit was
consumed. NaN, 0 and -0 are falsy, so they fall to the default. -/

/-- Numeric value of one hexadecimal digit character, none for any other
character. -/
def hexDigitVal (c : Char) : Option Nat :=
  if '0' ≤ c ∧ c ≤ '9' then some (c.toNat - 48)
  else if 'a' ≤ c ∧ c ≤ 'f' then some (c.toNat - 87)
  else if 'A' ≤ c ∧ c ≤ 'F' then some (c.toNat - 55)
  else none

/-- Value of a digit list in the given base (digits already validated). -/
def digitsVal (base : Nat) (ds : List Nat) : Nat :=
  ds.foldl (fun a d => a * base + d) 0

/-- JavaScript parseInt with no radix argument, on a string: none models NaN.
Leading whitespace is skipped, one optional sign read, a 0x/0X prefix switches
to base 16, and the longest prefix of digits of the active base is consumed
(trailing non-digits are ignored, an empty digit prefix gives NaN). -/
def jsParseInt (s : String) : Option Int :=
  let cs := s.toList.dropWhile Char.isWhitespace
  let sign : Int := match cs with
    | '-' :: _ => -1
    | _ => 1
  let cs := match cs with
    | '-' :: r => r
    | '+' :: r => r
    | r => r
  match cs with
  | '0' :: x :: r =>
      if x = 'x' ∨ x = 'X' then
        let ds := (r.map hexDigitVal).takeWhile Option.isSome
        if ds.isEmpty then none
        else some (sign * (digitsVal 16 (ds.map (fun o => o.getD 0)) : Int))
      else
        some (sign * (digitsVal 10 ((cs.takeWhile Char.isDigit).map
          (fun c => c.toNat - 48)) : Int))
  | _ =>
      let ds := cs.takeWhile Char.isDigit
      if ds.isEmpty then none
      else some (sign * (digitsVal 10 (ds.map (fun c => c.toNat - 48)) : Int))

/-- Default download size of server.js line 513: 10 MiB. -/
def DEFAULT_DL_SIZE : Int := 10 * 1024 * 1024

/-- Download size ceiling of server.js line 516: 100 MiB. -/
def MAX_DL_SIZE : Int := 100 * 1024 * 1024

/-- Size pipeline of server.js lines 512-518 applied to the optional size query
parameter: parseInt (parseInt(undefined) is NaN when the parameter is absent),
the falsy-default `|| 10 * 1024 * 1024` (NaN, 0 and -0 all default), then the
cap at 100 MiB. Every request reaches the streaming loop: no input is answered
with an error response. -/
def downloadSize (q : Option String) : Int :=
  let parsed : Option Int := match q with
    | none => none
    | some s => jsParseInt s
  let size : Int := match parsed with
    | none => DEFAULT_DL_SIZE
    | some v => if v = 0 then DEFAULT_DL_SIZE else v
  if size > MAX_DL_SIZE then MAX_DL_SIZE else size

/-! ## Backend: chunked download streaming (server.js, sendChunk, lines
529-563). The loop keeps a bytesSent counter and per iteration generates and
res.write-s a chunk of min(64 KiB, size - bytesSent) bytes, stopping when
bytesSent >= size. A chunk passed to res.write is queued and delivered to the
transport whether res.write returns true or false — the return value only
signals that the outbound buffer is over its high-water mark — but the source
advances bytesSent ONLY on a true return; on false it waits for drain and
re-runs the loop, which regenerates and re-writes the same byte range. The
model threads the successive res.write return values as an explicit schedule
and counts every queued byte. -/

/-- Loop of server.js lines 534-563 on the no-disconnect path. bytesSent is
the counter of the source, written the bytes actually queued on the
transport, accepts the successive return values of res.write. A rejected
write still queues its chunk but leaves bytesSent unchanged, so the drain
retry re-writes the same range. none means the schedule ran out before the
loop reached bytesSent >= size: the transfer is still streaming. -/
def sendChunkFrom (size : Int) : Nat → Nat → List Bool → Option Nat
  | bytesSent, written, accepts =>
    if (bytesSent : Int) ≥ size then some written
    else
      match accepts with
      | [] => none
      | ok :: rest =>
          let c := min (64 * 1024) (size - (bytesSent : Int)).toNat
          if ok then sendChunkFrom size (bytesSent + c) (written + c) rest
          else sendChunkFrom size bytesSent (written + c) rest

/-- Total bytes GET /download of server.js queues on the transport for a
computed size, given the successive res.write return values; none when the
transfer has not finished within that schedule. -/
def servedBytes (size : Int) (accepts : List Bool) : Option Nat :=
  sendChunkFrom size 0 0 accepts

/-! ## Worker variant: GET /download of src/unnamed/part_000 lines 76-115.
Size pipeline: `Math.min(parseInt(req.query.size) || 10 * 1024 * 1024,
100 * 1024 * 1024)`. The payload is getTestData(size); Buffer.alloc throws a
RangeError for a negative size, which Express turns into an error response.
The offset loop of lines 92-114 queues data.slice(offset, end) with
end = min(offset + 256 KiB, size) on every iteration, but advances offset to
end only when res.write returns true; on false the drain handler re-slices
and re-writes the same range. -/

/-- Worker size pipeline of part_000 line 79. -/
def workerDownloadSize (q : Option String) : Int :=
  let parsed : Option Int := match q with
    | none => none
    | some s => jsParseInt s
  let size : Int := match parsed with
    | none => DEFAULT_DL_SIZE
    | some v => if v = 0 then DEFAULT_DL_SIZE else v
  min size MAX_DL_SIZE

/-- Worker sendChunk loop (part_000 lines 92-114): offset and written-byte
accounting with the successive res.write return values threaded as a
schedule, as for sendChunkFrom. -/
def workerSendFrom (size : Int) : Nat → Nat → List Bool → Option Nat
  | offset, written, accepts =>
    if (offset : Int) ≥ size then some written
    else
      match accepts with
      | [] => none
      | ok :: rest =>
          let e := min (offset + 256 * 1024) size.toNat
          if ok then workerSendFrom size e (written + (e - offset)) rest
          else workerSendFrom size offset (written + (e - offset)) rest

/-- Outcome of the worker /download: allocError when Buffer.alloc throws on a
negative size (part_000 lines 52-61 and 80), stillStreaming when the
write-acceptance schedule ran out before the loop finished, completed with
the queued byte count otherwise. -/
inductive StreamOutcome where
  | allocError
  | stillStreaming
  | completed (written : Nat)
  deriving DecidableEq, Repr

/-- Body byte outcome of the worker /download for a computed size and a
res.write return schedule. -/
def workerServedBytes (size : Int) (accepts : List Bool) : StreamOutcome :=
  if size < 0 then .allocError
  else
    match workerSendFrom size 0 0 accepts with
    | some w => .completed w
    | none => .stillStreaming

/-! ## Backend: result store (server.js, POST /api/save-results lines 239-289
and GET /api/results/:id lines 292-315). The handler generates a uuid, writes
it with a server timestamp and the client IP over whatever the client sent in
those fields, stores the record in the testResults Map under the new id, and
answers with the id. The uuid generator is modelled as an externally supplied
identifier argument. The Map is modelled as an association list whose most
recent binding for a key wins (List.lookup), matching Map.set / Map.get. -/

/-- Payload of one POST /api/save-results request: the id and timestamp the
client may have sent along, and the rest of the body (opaque here). -/
structure SubmitPayload where
  clientSentId : Option String
  clientSentTimestamp : Option String
  body : String
  deriving DecidableEq, Repr

/-- Record as stored by server.js lines 245-250: id, timestamp and clientIp are
server-assigned, the rest of the body is kept. -/
structure StoredResult where
  id : String
  timestamp : String
  clientIp : String
  body : String
  deriving DecidableEq, Repr

/-- The testResults store: newest binding first. -/
def ResultStore := List (String × StoredResult)

/-- saveResults handler effect (server.js lines 241-250 and 277-281): assembles
the stored record — ignoring clientSentId and clientSentTimestamp, which lines
245-247 overwrite — stores it under the fresh id and returns that id. -/
def saveResults (store : ResultStore) (p : SubmitPayload) (freshId ts ip : String) :
    ResultStore × String :=
  ((freshId, { id := freshId, timestamp := ts, clientIp := ip, body := p.body })
    :: store, freshId)

/-- Response of GET /api/results/:id. -/
inductive GetResultResponse where
  | found (r : StoredResult)
  | notFound
  deriving DecidableEq, Repr

/-- GET /api/results/:id handler (server.js lines 292-315): a hit answers the
stored record, a miss answers the structured 404 body. -/
def getResult (store : ResultStore) (testId : String) : GetResultResponse :=
  match List.lookup testId store with
  | some r => .found r
  | none => .notFound

/-- One save request as issued: payload plus the uuid, timestamp and client IP
the server produces while handling it. -/
structure SaveRequest where
  payload : SubmitPayload
  freshId : String
  ts : String
  ip : String
  deriving DecidableEq, Repr

/-- Store after a sequence of save requests from a given store. -/
def runSavesFrom (st : ResultStore) (reqs : List SaveRequest) : ResultStore :=
  reqs.foldl (fun s r => (saveResults s r.payload r.freshId r.ts r.ip).1) st

/-- Store after a sequence of save requests from the empty Map. -/
def runSaves (reqs : List SaveRequest) : ResultStore :=
  runSavesFrom [] reqs

/-- The ids the server generated and returned over a sequence of saves. -/
def savedIds (reqs : List SaveRequest) : List String :=
  reqs.map (fun r => r.freshId)

/-- Concrete save sequence used by the C10 witness. -/
def demoSaves : List SaveRequest :=
  [{ payload := { clientSentId := some "mine", clientSentTimestamp := none, body := "r1" }
     freshId := "uuid-1", ts := "t1", ip := "ip1" },
   { payload := { clientSentId := none, clientSentTimestamp := some "then", body := "r2" }
     freshId := "uuid-2", ts := "t2", ip := "ip2" }]

/-! ## Backend: haversine distance and optimal-server selection (server.js,
calculateDistance lines 136-146 and GET /api/optimal-server lines 198-236).
Floating-point trigonometry is modelled over the reals. -/

noncomputable section

open scoped Classical

/-- JavaScript Math.atan2(y, x) over the reals (the minus-zero distinctions of
IEEE 754 collapse onto plain zero). -/
def atan2 (y x : ℝ) : ℝ :=
  if 0 < x then Real.arctan (y / x)
  else if x < 0 ∧ 0 ≤ y then Real.arctan (y / x) + Real.pi
  else if x < 0 ∧ y < 0 then Real.arctan (y / x) - Real.pi
  else if x = 0 ∧ 0 < y then Real.pi / 2
  else if x = 0 ∧ y < 0 then -(Real.pi / 2)
  else 0

/-- The intermediate `a` of calculateDistance (server.js lines 140-143):
sin(dLat/2)^2 + cos(lat1 rad) * cos(lat2 rad) * sin(dLon/2)^2, with dLat and
dLon the coordinate differences in radians. -/
def haverA (lat1 lon1 lat2 lon2 : ℝ) : ℝ :=
  Real.sin ((lat2 - lat1) * Real.pi / 180 / 2) *
    Real.sin ((lat2 - lat1) * Real.pi / 180 / 2) +
  Real.cos (lat1 * Real.pi / 180) * Real.cos (lat2 * Real.pi / 180) *
    (Real.sin ((lon2 - lon1) * Real.pi / 180 / 2) *
      Real.sin ((lon2 - lon1) * Real.pi / 180 / 2))

/-- calculateDistance (server.js lines 136-146): R * c with R = 6371 km and
c = 2 * atan2(sqrt(a), sqrt(1 - a)). -/
def calculateDistance (lat1 lon1 lat2 lon2 : ℝ) : ℝ :=
  6371 * (2 * atan2 (Real.sqrt (haverA lat1 lon1 lat2 lon2))
    (Real.sqrt (1 - haverA lat1 lon1 lat2 lon2)))

/-- Directory entry fields the selection logic reads (server.js lines 80-133;
host strings and ports are irrelevant to the claims and omitted). -/
structure TestServer where
  id : Nat
  name : String
  location : String
  country : String
  lat : ℝ
  lon : ℝ
  capacity : Nat
  activeConnections : Nat
  status : String

/-- Primary Server, New York (server.js lines 81-93). -/
def server1 : TestServer :=
  { id := 1, name := "Primary Server", location := "New York, USA", country := "US"
    lat := 40.7128, lon := -74.0060, capacity := 1000, activeConnections := 0
    status := "online" }

/-- Europe Server, London (server.js lines 94-106). -/
def server2 : TestServer :=
  { id := 2, name := "Europe Server", location := "London, UK", country := "GB"
    lat := 51.5074, lon := -0.1278, capacity := 800, activeConnections := 0
    status := "online" }

/-- Asia Server, Singapore (server.js lines 107-119). -/
def server3 : TestServer :=
  { id := 3, name := "Asia Server", location := "Singapore", country := "SG"
    lat := 1.3521, lon := 103.8198, capacity := 600, activeConnections := 0
    status := "online" }

/-- Australia Server, Sydney (server.js lines 120-132). -/
def server4 : TestServer :=
  { id := 4, name := "Australia Server", location := "Sydney, Australia", country := "AU"
    lat := -33.8688, lon := 151.2093, capacity := 500, activeConnections := 0
    status := "online" }

/-- The static registry of server.js lines 80-133. -/
def testServers : List TestServer := [server1, server2, server3, server4]

/-- Selection loop of server.js lines 209-222. The accumulator holds the current
optimalServer together with minDistance; none stands for the initial
optimalServer = null with minDistance = Infinity (any finite distance beats
it). A server is taken when its distance beats the minimum so far and its
status is online. -/
def selectLoop (dist : TestServer → ℝ) : List TestServer →
    Option (TestServer × ℝ) → Option (TestServer × ℝ)
  | [], best => best
  | srv :: rest, best =>
      if (best.elim True fun p => dist srv < p.2) ∧ srv.status = "online" then
        selectLoop dist rest (some (srv, dist srv))
      else
        selectLoop dist rest best

/-- Response of GET /api/optimal-server. The geo-unknown branch returns the raw
first directory entry (server.js line 205). When geo resolves, the selected
entry is answered together with its distance and the simulated latency
Math.floor(minDistance * 0.1) + 10 (line 229). noneOnline is the fallback of
lines 224-226, unreachable with the static all-online registry; its simulated
latency would be the JavaScript Infinity, which has no integer counterpart, so
the constructor carries no latency field. -/
inductive OptimalResponse where
  | primary (srv : TestServer)
  | selected (srv : TestServer) (distance : ℝ) (latency : ℤ)
  | noneOnline (srv : TestServer)

/-- GET /api/optimal-server handler (server.js lines 198-236) given the
geolocation lookup outcome for the client. -/
def optimalServerResponse (geo : Option (ℝ × ℝ)) : OptimalResponse :=
  match geo with
  | none => .primary server1
  | some (glat, glon) =>
      match selectLoop (fun s => calculateDistance glat glon s.lat s.lon)
          testServers none with
      | some (srv, d) => .selected srv d (⌊d * (0.1 : ℝ)⌋ + 10)
      | none => .noneOnline server1

end

/-! ### Theorems -/

/-- C8: the quality score starts at 100 and applies the three conditional
penalties exactly as the claim words them (the code computation coincides with
the spec-worded penalty form for all inputs), and on the two quoted inputs the
score is 100 with label Excellent, and 30 with label Bad. -/
theorem C8_quality_score :
    (∀ ping jitter packetLoss : ℚ,
        qualityScore ping jitter packetLoss = specQualityScore ping jitter packetLoss
        ∧ estimateSignalQuality ping jitter packetLoss =
            qualityLabel (specQualityScore ping jitter packetLoss))
    ∧ qualityScore 20 2 0.01 = 100
    ∧ estimateSignalQuality 20 2 0.01 = "Excellent"
    ∧ qualityScore 150 15 0.2 = 30
    ∧ estimateSignalQuality 150 15 0.2 = "Bad" := by
  have hmain : ∀ ping jitter packetLoss : ℚ,
      qualityScore ping jitter packetLoss = specQualityScore ping jitter packetLoss := by
    intro p j l
    simp only [qualityScore, specQualityScore, specPingPenalty, specJitterPenalty,
      specLossPenalty]
    split_ifs <;> ring
  refine ⟨fun p j l => ⟨hmain p j l, ?_⟩, by norm_num [qualityScore],
    by norm_num [estimateSignalQuality, qualityScore, qualityLabel],
    by norm_num [qualityScore], by norm_num [estimateSignalQuality, qualityScore, qualityLabel]⟩
  rw [estimateSignalQuality, hmain p j l]

/-- C2: refuted on the code. With two of the four parallel connections reporting
progress (connection 0 has 100 bytes loaded, then connection 1 reports its own
50 bytes), the shared this.loadedBytes accumulator makes the running total 50,
while the bytes actually received by the sub-transfers sum to 150. -/
theorem C2_shared_accumulator_miscounts :
    (runDownloadProgress c2Trace).totalBytes = 50
    ∧ totalReceived c2Trace = 150
    ∧ ((50 : Int) ≠ 150) := by decide

/-- C1: refuted on the code. currentTest stays null in every reachable state
(no code path assigns it), so a stop click aborts nothing, and a run in which
the user clicks stop during the download phase still hands its result to
saveResults: the stored history grows, no transfer is ever aborted. -/
theorem C1_stop_neither_aborts_nor_discards :
    (∀ events : List RunEvent, (runEvents events).currentTest = none)
    ∧ (runEvents stoppedRunSchedule).abortedTransfers = []
    ∧ (runEvents stoppedRunSchedule).savedResults = [1]
    ∧ (runEvents stoppedRunSchedule).isTesting = false := by
  have hstep : ∀ (s : SpeedTestState) (e : RunEvent),
      (runStep s e).currentTest = s.currentTest := by
    intro s e
    cases e <;> try rfl
    show (if s.isTesting then stopTest s else s).currentTest = s.currentTest
    split
    · show (stopTest s).currentTest = s.currentTest
      unfold stopTest
      cases hc : s.currentTest <;> simp [hc]
    · rfl
  have hfold : ∀ (es : List RunEvent) (s : SpeedTestState),
      (es.foldl runStep s).currentTest = s.currentTest := by
    intro es
    induction es with
    | nil => intro s; rfl
    | cons e t ih => intro s; rw [List.foldl_cons, ih, hstep]
  exact ⟨fun events => hfold events speedTestInit, by decide, by decide, by decide⟩

/-- Helper for C9: folding a duplicate-free batch of fresh sizes into the cache
grows the key list by exactly the batch length. -/
theorem foldTestDataKeys_length : ∀ (sizes cache : List Nat), sizes.Nodup →
    (∀ x ∈ sizes, x ∉ cache) →
    (sizes.foldl getTestDataKeys cache).length = cache.length + sizes.length := by
  intro sizes
  induction sizes with
  | nil => intro cache _ _; simp
  | cons s t ih =>
      intro cache hnd hdis
      rw [List.foldl_cons]
      have hs : s ∉ cache := hdis s (by simp)
      have hkey : getTestDataKeys cache s = cache ++ [s] := by
        simp [getTestDataKeys, hs]
      rw [hkey, ih (cache ++ [s]) (List.Nodup.of_cons hnd)]
      · simp
        omega
      · intro x hx
        have hxs : x ≠ s := by
          rintro rfl
          exact (List.nodup_cons.mp hnd).1 hx
        have hxc : x ∉ cache := hdis x (List.mem_cons_of_mem s hx)
        simp [List.mem_append, hxc, hxs]

/-- C9: refuted on the code. One hundred requests with one hundred fresh sizes
leave one hundred cached entries, and no bound B caps the number of distinct
cached sizes: the cache has neither a cap nor any eviction. -/
theorem C9_cache_unbounded :
    (runTestDataRequests (List.range 100)).length = 100
    ∧ ¬ ∃ B : Nat, ∀ sizes : List Nat, (runTestDataRequests sizes).length ≤ B := by
  have hlen : ∀ n : Nat, (runTestDataRequests (List.range n)).length = n := by
    intro n
    have := foldTestDataKeys_length (List.range n) [] (List.nodup_range n)
      (by intro x _ hx; simp at hx)
    simpa [runTestDataRequests] using this
  refine ⟨hlen 100, ?_⟩
  rintro ⟨B, hB⟩
  have h1 := hB (List.range (B + 1))
  rw [hlen (B + 1)] at h1
  omega

/-- Helper for C5: the incremental update keeps totalTests equal to the number
of folded results and each average times that count equal to the running sum,
from any starting statistics record. -/
theorem foldStats_invariant : ∀ (rs : List ResultMetrics) (s : ServerStats),
    (rs.foldl updateServerStats s).totalTests = s.totalTests + rs.length
    ∧ (rs.foldl updateServerStats s).avgPing * ((s.totalTests : ℚ) + rs.length) =
        s.avgPing * s.totalTests + (rs.map fun r => r.ping).sum
    ∧ (rs.foldl updateServerStats s).avgDownload * ((s.totalTests : ℚ) + rs.length) =
        s.avgDownload * s.totalTests + (rs.map fun r => r.download).sum
    ∧ (rs.foldl updateServerStats s).avgUpload * ((s.totalTests : ℚ) + rs.length) =
        s.avgUpload * s.totalTests + (rs.map fun r => r.upload).sum := by
  intro rs
  induction rs with
  | nil => intro s; simp
  | cons r t ih =>
      intro s
      rw [List.foldl_cons]
      obtain ⟨ih1, ih2, ih3, ih4⟩ := ih (updateServerStats s r)
      have hn : ((s.totalTests : ℚ) + 1) ≠ 0 := by positivity
      have htot : (updateServerStats s r).totalTests = s.totalTests + 1 := rfl
      rw [htot] at ih2 ih3 ih4
      push_cast at ih2 ih3 ih4
      refine ⟨by rw [ih1, htot, List.length_cons]; omega, ?_, ?_, ?_⟩
      · have hup : (updateServerStats s r).avgPing * ((s.totalTests : ℚ) + 1) =
            s.avgPing * s.totalTests + r.ping := by
          simp only [updateServerStats]
          push_cast
          rw [div_mul_cancel₀ _ hn]
          ring
        simp only [List.map_cons, List.sum_cons, List.length_cons]
        push_cast
        linear_combination ih2 + hup
      · have hup : (updateServerStats s r).avgDownload * ((s.totalTests : ℚ) + 1) =
            s.avgDownload * s.totalTests + r.download := by
          simp only [updateServerStats]
          push_cast
          rw [div_mul_cancel₀ _ hn]
          ring
        simp only [List.map_cons, List.sum_cons, List.length_cons]
        push_cast
        linear_combination ih3 + hup
      · have hup : (updateServerStats s r).avgUpload * ((s.totalTests : ℚ) + 1) =
            s.avgUpload * s.totalTests + r.upload := by
          simp only [updateServerStats]
          push_cast
          rw [div_mul_cancel₀ _ hn]
          ring
        simp only [List.map_cons, List.sum_cons, List.length_cons]
        push_cast
        linear_combination ih4 + hup

/-- C5: after N accepted results for a server, totalTests is N and each running
average equals the arithmetic mean of the N submitted samples (exact over the
rationals that model the floats). -/
theorem C5_incremental_mean_is_batch_mean (rs : List ResultMetrics) (h : 0 < rs.length) :
    (foldServerStats rs).totalTests = rs.length
    ∧ (foldServerStats rs).avgPing = ((rs.map fun r => r.ping).sum) / (rs.length : ℚ)
    ∧ (foldServerStats rs).avgDownload =
        ((rs.map fun r => r.download).sum) / (rs.length : ℚ)
    ∧ (foldServerStats rs).avgUpload =
        ((rs.map fun r => r.upload).sum) / (rs.length : ℚ) := by
  obtain ⟨h1, h2, h3, h4⟩ := foldStats_invariant rs initServerStats
  have hlen : ((rs.length : ℚ)) ≠ 0 := by
    have : (0 : ℚ) < rs.length := by exact_mod_cast h
    exact ne_of_gt this
  simp only [initServerStats] at h1 h2 h3 h4
  norm_num at h1 h2 h3 h4
  refine ⟨by simpa [foldServerStats] using h1, ?_, ?_, ?_⟩
  · rw [eq_div_iff hlen]
    simpa [foldServerStats] using h2
  · rw [eq_div_iff hlen]
    simpa [foldServerStats] using h3
  · rw [eq_div_iff hlen]
    simpa [foldServerStats] using h4

/-- Witness for C5 at the concrete two-result history demoMetrics. -/
theorem C5_incremental_mean_is_batch_mean_witness :
    0 < demoMetrics.length
    ∧ ((foldServerStats demoMetrics).totalTests = demoMetrics.length
      ∧ (foldServerStats demoMetrics).avgPing =
          ((demoMetrics.map fun r => r.ping).sum) / (demoMetrics.length : ℚ)
      ∧ (foldServerStats demoMetrics).avgDownload =
          ((demoMetrics.map fun r => r.download).sum) / (demoMetrics.length : ℚ)
      ∧ (foldServerStats demoMetrics).avgUpload =
          ((demoMetrics.map fun r => r.upload).sum) / (demoMetrics.length : ℚ)) :=
  ⟨by decide, C5_incremental_mean_is_batch_mean demoMetrics (by decide)⟩

/-- C3 counterexample: the claim requires a parsed zero to be honored and any
non-parseable-non-negative value (such as a negative number) to fall back to
the default; the code does neither. A size parameter of "0" is replaced by the
10 MiB default (zero is falsy in JavaScript), and "-5" is kept as -5 instead
of defaulting. -/
theorem C3_size_zero_and_negative :
    downloadSize (some "0") = DEFAULT_DL_SIZE
    ∧ DEFAULT_DL_SIZE ≠ (0 : ℤ)
    ∧ downloadSize (some "-5") = -5
    ∧ ((-5 : ℤ) ≠ DEFAULT_DL_SIZE) := by decide

/-- C3 amended: a missing, unparseable or zero-parsing size parameter falls back
to the 10 MiB default; any nonzero parsed value v — negative values included —
is used as-is, capped at the 100 MiB ceiling when above it; and every request
reaches the streaming path with a size of at most the ceiling (no size is
answered with an error response). -/
theorem C3_size_pipeline :
    downloadSize none = DEFAULT_DL_SIZE
    ∧ (∀ s : String, jsParseInt s = none → downloadSize (some s) = DEFAULT_DL_SIZE)
    ∧ (∀ s : String, jsParseInt s = some 0 → downloadSize (some s) = DEFAULT_DL_SIZE)
    ∧ (∀ (s : String) (v : ℤ), jsParseInt s = some v → v ≠ 0 →
        downloadSize (some s) = if v > MAX_DL_SIZE then MAX_DL_SIZE else v)
    ∧ (∀ q : Option String, downloadSize q ≤ MAX_DL_SIZE) := by
  refine ⟨by decide, ?_, ?_, ?_, ?_⟩
  · intro s hs
    simp [downloadSize, hs, DEFAULT_DL_SIZE, MAX_DL_SIZE]
  · intro s hs
    simp [downloadSize, hs, DEFAULT_DL_SIZE, MAX_DL_SIZE]
  · intro s v hs hv
    simp [downloadSize, hs, hv]
  · intro q
    have hmax : ∀ z : ℤ, (if z > MAX_DL_SIZE then MAX_DL_SIZE else z) ≤ MAX_DL_SIZE := by
      intro z
      split <;> omega
    simp only [downloadSize]
    exact hmax _

/-- Witness for C3 at a concrete oversize parameter of 200 MiB. -/
theorem C3_size_pipeline_witness :
    jsParseInt "209715200" = some 209715200
    ∧ ((209715200 : ℤ) ≠ 0)
    ∧ downloadSize (some "209715200") =
        if (209715200 : ℤ) > MAX_DL_SIZE then MAX_DL_SIZE else 209715200 :=
  ⟨by decide, by decide, C3_size_pipeline.2.2.2.1 "209715200" 209715200 (by decide) (by decide)⟩

/-- Helper for C4: while every res.write is rejected the loop never advances
bytesSent, so no all-rejected schedule completes a positive-size transfer —
each drain retry only queues another copy of the same chunk. -/
theorem sendChunkFrom_all_false (size : ℤ) (hpos : 0 < size) :
    ∀ (n written : ℕ), sendChunkFrom size 0 written (List.replicate n false) = none := by
  intro n
  induction n with
  | zero =>
      intro written
      rw [List.replicate_zero, sendChunkFrom, if_neg (by omega)]
  | succ m ih =>
      intro written
      rw [List.replicate_succ, sendChunkFrom, if_neg (by omega)]
      exact ih _

/-- C4: refuted on the code. A 100-byte request completes with exactly 100
queued bytes when the single res.write is accepted, but one rejected write
(backpressure) makes the program queue the same 100-byte range twice — 200
bytes delivered for a 100-byte request, because a chunk handed to res.write
is delivered even on a false return while bytesSent only advances on true,
so the drain retry regenerates and re-writes the same range; a schedule of
nothing but rejected writes never completes at all; the worker variant of
part_000 over-serves identically; and a request parsing to the negative size
-5 ends instantly with an empty body instead of the clamped size. -/
theorem C4_backpressure_overserves :
    servedBytes 100 [true] = some 100
    ∧ servedBytes 100 [false, true] = some 200
    ∧ (some 200 ≠ some (100 : ℕ))
    ∧ (∀ n : ℕ, servedBytes 100 (List.replicate n false) = none)
    ∧ workerServedBytes 100 [true] = .completed 100
    ∧ workerServedBytes 100 [false, true] = .completed 200
    ∧ downloadSize (some "-5") = -5
    ∧ servedBytes (-5) [] = some 0 := by
  refine ⟨by decide, by decide, by decide, ?_, by decide, by decide, by decide, by decide⟩
  intro n
  exact sendChunkFrom_all_false 100 (by decide) n 0

/-- Helper for C10: a key that is none of the generated ids of a save sequence
is absent from the store those saves build, whatever store they started from. -/
theorem runSaves_lookup_none : ∀ (reqs : List SaveRequest) (st : ResultStore) (q : String),
    List.lookup q st = none → q ∉ savedIds reqs →
    List.lookup q (runSavesFrom st reqs) = none := by
  intro reqs
  induction reqs with
  | nil => intro st q h _; exact h
  | cons r t ih =>
      intro st q h hq
      rw [runSavesFrom, List.foldl_cons]
      show List.lookup q (runSavesFrom _ t) = none
      have hne : q ≠ r.freshId := by
        intro hqr
        exact hq (by simp [savedIds, hqr])
      have hq2 : q ∉ savedIds t := by
        intro hmem
        exact hq (by simp [savedIds] at hmem ⊢; exact Or.inr hmem)
      apply ih _ q _ hq2
      have hbeq : (q == r.freshId) = false := beq_eq_false_iff_ne.mpr hne
      simp [saveResults, List.lookup, hbeq, h]

/-- C10: save-results returns the freshly generated id and stores the record
under it with the server-assigned id, timestamp and client IP — whatever id or
timestamp the client sent along is overwritten, since the stored record is
independent of those fields; getting the returned id yields exactly the stored
record, and getting any id never generated by a save yields the structured
not-found response. -/
theorem C10_save_get_round_trip :
    (∀ (store : ResultStore) (p : SubmitPayload) (freshId ts ip : String),
        (saveResults store p freshId ts ip).2 = freshId
        ∧ getResult (saveResults store p freshId ts ip).1 freshId =
            .found { id := freshId, timestamp := ts, clientIp := ip, body := p.body }
        ∧ (∀ cid cts : Option String,
            saveResults store { p with clientSentId := cid, clientSentTimestamp := cts }
              freshId ts ip = saveResults store p freshId ts ip))
    ∧ (∀ (reqs : List SaveRequest) (q : String),
        q ∉ savedIds reqs → getResult (runSaves reqs) q = .notFound) := by
  constructor
  · intro store p freshId ts ip
    refine ⟨rfl, ?_, fun cid cts => rfl⟩
    simp [getResult, saveResults, List.lookup]
  · intro reqs q hq
    have h := runSaves_lookup_none reqs [] q rfl hq
    unfold getResult runSaves
    rw [h]


/-- Witness for C10: after the concrete two-save sequence demoSaves, an id that
was never generated gets the not-found response. -/
theorem C10_save_get_round_trip_witness :
    "uuid-3" ∉ savedIds demoSaves
    ∧ getResult (runSaves demoSaves) "uuid-3" = .notFound :=
  ⟨by decide, C10_save_get_round_trip.2 demoSaves "uuid-3" (by decide)⟩

/-- Helper for C6: the haversine intermediate is symmetric in the two
coordinate pairs (sine is odd, so the squared sines of the negated half
differences agree, and the cosine product commutes). -/
theorem haverA_swap (lat1 lon1 lat2 lon2 : ℝ) :
    haverA lat2 lon2 lat1 lon1 = haverA lat1 lon1 lat2 lon2 := by
  unfold haverA
  have e1 : (lat1 - lat2) * Real.pi / 180 / 2 = -((lat2 - lat1) * Real.pi / 180 / 2) := by
    ring
  have e2 : (lon1 - lon2) * Real.pi / 180 / 2 = -((lon2 - lon1) * Real.pi / 180 / 2) := by
    ring
  rw [e1, e2]
  simp only [Real.sin_neg]
  ring

/-- Helper for C6: the haversine intermediate vanishes on identical
coordinates. -/
theorem haverA_self (lat lon : ℝ) : haverA lat lon lat lon = 0 := by
  unfold haverA
  simp

/-- C6: over the reals that model the floats, calculateDistance with Earth
radius 6371 km is symmetric in its two coordinate pairs and vanishes on
identical coordinates. -/
theorem C6_haversine_symm_and_self (lat1 lon1 lat2 lon2 : ℝ) :
    calculateDistance lat1 lon1 lat2 lon2 = calculateDistance lat2 lon2 lat1 lon1
    ∧ calculateDistance lat1 lon1 lat1 lon1 = 0 := by
  constructor
  · unfold calculateDistance
    rw [haverA_swap]
  · unfold calculateDistance
    rw [haverA_self]
    norm_num [atan2, Real.arctan_zero]

/-- Helper for C7: once the loop accumulator holds a candidate it never goes
back to null. -/
theorem selectLoop_isSome_of (dist : TestServer → ℝ) :
    ∀ (l : List TestServer) (best : Option (TestServer × ℝ)),
      best.isSome = true → (selectLoop dist l best).isSome = true := by
  intro l
  induction l with
  | nil => intro best h; exact h
  | cons srv t ih =>
      intro best h
      rw [selectLoop]
      split
      · exact ih _ rfl
      · exact ih _ h

/-- Helper for C7: if some listed server is online the loop ends with a
candidate. -/
theorem selectLoop_isSome_online (dist : TestServer → ℝ) :
    ∀ (l : List TestServer) (best : Option (TestServer × ℝ)) (s : TestServer),
      s ∈ l → s.status = "online" → (selectLoop dist l best).isSome = true := by
  intro l
  induction l with
  | nil => intro best s hs _; simp at hs
  | cons srv t ih =>
      intro best s hs hson
      rw [selectLoop]
      split
      · exact selectLoop_isSome_of dist t _ rfl
      · rename_i hcond
        rcases List.mem_cons.mp hs with rfl | hmem
        · rcases best with _ | q
          · exact absurd ⟨trivial, hson⟩ hcond
          · exact selectLoop_isSome_of dist t _ rfl
        · exact ih _ s hmem hson

/-- Helper for C7: a candidate the loop returns either was the accumulator or
is a listed online server paired with its own distance. -/
theorem selectLoop_result (dist : TestServer → ℝ) :
    ∀ (l : List TestServer) (best : Option (TestServer × ℝ)) (p : TestServer × ℝ),
      selectLoop dist l best = some p →
      best = some p ∨ (p.1 ∈ l ∧ p.1.status = "online" ∧ p.2 = dist p.1) := by
  intro l
  induction l with
  | nil => intro best p h; exact Or.inl h
  | cons srv t ih =>
      intro best p h
      rw [selectLoop] at h
      split at h
      · rename_i hcond
        rcases ih _ p h with hb | ⟨hm, hon, hd⟩
        · injection hb with hb2
          subst hb2
          exact Or.inr ⟨by simp, hcond.2, rfl⟩
        · exact Or.inr ⟨List.mem_cons_of_mem _ hm, hon, hd⟩
      · rcases ih _ p h with hb | ⟨hm, hon, hd⟩
        · exact Or.inl hb
        · exact Or.inr ⟨List.mem_cons_of_mem _ hm, hon, hd⟩

/-- Helper for C7: the returned candidate beats the starting accumulator and
every listed online server in distance. -/
theorem selectLoop_min (dist : TestServer → ℝ) :
    ∀ (l : List TestServer) (best : Option (TestServer × ℝ)) (p : TestServer × ℝ),
      selectLoop dist l best = some p →
      (∀ q, best = some q → p.2 ≤ q.2) ∧
      (∀ s ∈ l, s.status = "online" → p.2 ≤ dist s) := by
  intro l
  induction l with
  | nil =>
      intro best p h
      rw [selectLoop] at h
      refine ⟨?_, by simp⟩
      intro q hq
      have h2 : some p = some q := h.symm.trans hq
      injection h2 with h3
      rw [h3]
  | cons srv t ih =>
      intro best p h
      rw [selectLoop] at h
      split at h
      · rename_i hcond
        obtain ⟨ih1, ih2⟩ := ih _ p h
        have hps : p.2 ≤ dist srv := ih1 (srv, dist srv) rfl
        constructor
        · intro q hq
          subst hq
          exact le_trans hps (le_of_lt hcond.1)
        · intro s hs hson
          rcases List.mem_cons.mp hs with rfl | hmem
          · exact hps
          · exact ih2 s hmem hson
      · rename_i hcond
        obtain ⟨ih1, ih2⟩ := ih _ p h
        refine ⟨ih1, ?_⟩
        intro s hs hson
        rcases List.mem_cons.mp hs with rfl | hmem
        · rcases hbest : best with _ | q
          · subst hbest
            exact absurd ⟨trivial, hson⟩ hcond
          · have hq2 : ¬ dist s < q.2 := by
              intro hlt
              apply hcond
              subst hbest
              exact ⟨hlt, hson⟩
            exact le_trans (ih1 q hbest) (le_of_not_lt hq2)
        · exact ih2 s hmem hson

/-- C7: with the geolocation unresolved the endpoint answers the raw primary
(first) directory entry; with coordinates resolved it answers an online
directory server whose haversine distance is minimal among all four (all are
online in the static registry), carrying that distance and the simulated
latency floor(distance * 0.1) + 10. -/
theorem C7_optimal_server_selection :
    optimalServerResponse none = OptimalResponse.primary server1
    ∧ ∀ glat glon : ℝ,
        (match optimalServerResponse (some (glat, glon)) with
          | OptimalResponse.selected srv d lat =>
              srv ∈ testServers ∧ srv.status = "online"
              ∧ d = calculateDistance glat glon srv.lat srv.lon
              ∧ d ≤ calculateDistance glat glon server1.lat server1.lon
              ∧ d ≤ calculateDistance glat glon server2.lat server2.lon
              ∧ d ≤ calculateDistance glat glon server3.lat server3.lon
              ∧ d ≤ calculateDistance glat glon server4.lat server4.lon
              ∧ lat = ⌊d * (0.1 : ℝ)⌋ + 10
          | _ => False) := by
  refine ⟨rfl, ?_⟩
  intro glat glon
  obtain ⟨p, hp⟩ := Option.isSome_iff_exists.mp
    (selectLoop_isSome_online (fun s => calculateDistance glat glon s.lat s.lon)
      testServers none server1 (by simp [testServers]) rfl)
  obtain ⟨srv, d⟩ := p
  have hres := selectLoop_result _ testServers none _ hp
  have hmin := selectLoop_min _ testServers none _ hp
  simp only [optimalServerResponse, hp]
  rcases hres with hb | ⟨hm, hon, hd⟩
  · exact Option.noConfusion hb
  · refine ⟨hm, hon, hd, ?_, ?_, ?_, ?_, trivial⟩
    · exact hmin.2 server1 (by simp [testServers]) rfl
    · exact hmin.2 server2 (by simp [testServers]) rfl
    · exact hmin.2 server3 (by simp [testServers]) rfl
    · exact hmin.2 server4 (by simp [testServers]) rfl

end NetworkTest
